import Mathlib

/-
Verification of the godep DEP API client (profile operations and the
authenticated request executor they rely on).

The repository source under godep/profile.go provides the typed operation
methods AssignProfile, DefineProfile and RemoveProfile together with their
request and response JSON shapes.  Those definitions are embedded here
directly from the Go source.  The shared request machinery (Client.do, the
session manager and the response decoder) is not part of the given source
tree; it is modelled from the specification of the Session Manager, Request
Executor and Response Decoder components, as indicated on each definition.
-/

namespace Godep

/-- JSON values, as produced by Go encoding of the request and response
shapes.  Objects keep their fields as an ordered association list, matching
the field order Go emits. -/
inductive Json where
  | null : Json
  | bool : Bool → Json
  | str : String → Json
  | arr : List Json → Json
  | obj : List (String × Json) → Json

/-- Keys of a JSON object (empty for non-objects). -/
def Json.objKeys : Json → List String
  | Json.obj fs => fs.map Prod.fst
  | _ => []

/-- Fields of a JSON object (empty for non-objects). -/
def Json.objFields : Json → List (String × Json)
  | Json.obj fs => fs
  | _ => []

/-- HTTP method constants, as in the Go net/http package. -/
def http.MethodPut : String := "PUT"

/-- HTTP method constant POST, as in the Go net/http package. -/
def http.MethodPost : String := "POST"

/-- HTTP method constant DELETE, as in the Go net/http package. -/
def http.MethodDelete : String := "DELETE"

/-- The Profile structure of godep/profile.go, corresponding to the Apple
DEP API Profile structure.  Go zero values are the defaults. -/
structure Profile where
  ProfileName : String := ""
  URL : String := ""
  AllowPairing : Bool := false
  IsSupervised : Bool := false
  IsMultiUser : Bool := false
  IsMandatory : Bool := false
  AwaitDeviceConfigured : Bool := false
  IsMDMRemovable : Bool := false
  SupportPhoneNumber : String := ""
  AutoAdvanceSetup : Bool := false
  SupportEmailAddress : String := ""
  OrgMagic : String := ""
  AnchorCerts : List String := []
  SupervisingHostCerts : List String := []
  Department : String := ""
  Devices : List String := []
  Language : String := ""
  Region : String := ""
  ConfigurationWebURL : String := ""
  SkipSetupItems : List String := []
  ProfileUUID : String := ""
deriving DecidableEq

/-- Encoding of a string struct field tagged omitempty: Go encoding/json
omits the key when the string is its zero value. -/
def omitemptyStr (k v : String) : List (String × Json) :=
  if v = "" then [] else [(k, Json.str v)]

/-- Encoding of a Bool struct field tagged omitempty: Go encoding/json
omits the key when the value is false. -/
def omitemptyBool (k : String) (v : Bool) : List (String × Json) :=
  if v = false then [] else [(k, Json.bool v)]

/-- Encoding of a string-slice struct field tagged omitempty: Go
encoding/json omits the key when the slice is nil or empty. -/
def omitemptyList (k : String) (v : List String) : List (String × Json) :=
  if v = [] then [] else [(k, Json.arr (v.map Json.str))]

/-- Go encoding/json marshalling of Profile, following the struct tags of
godep/profile.go: profile_name, url, org_magic and is_mdm_removable are
always emitted, every other field is tagged omitempty. -/
def Profile.marshalJSON (p : Profile) : Json :=
  Json.obj
    ([("profile_name", Json.str p.ProfileName), ("url", Json.str p.URL)]
      ++ omitemptyBool "allow_pairing" p.AllowPairing
      ++ omitemptyBool "is_supervised" p.IsSupervised
      ++ omitemptyBool "is_multi_user" p.IsMultiUser
      ++ omitemptyBool "is_mandatory" p.IsMandatory
      ++ omitemptyBool "await_device_configured" p.AwaitDeviceConfigured
      ++ [("is_mdm_removable", Json.bool p.IsMDMRemovable)]
      ++ omitemptyStr "support_phone_number" p.SupportPhoneNumber
      ++ omitemptyBool "auto_advance_setup" p.AutoAdvanceSetup
      ++ omitemptyStr "support_email_address" p.SupportEmailAddress
      ++ [("org_magic", Json.str p.OrgMagic)]
      ++ omitemptyList "anchor_certs" p.AnchorCerts
      ++ omitemptyList "supervising_host_certs" p.SupervisingHostCerts
      ++ omitemptyStr "department" p.Department
      ++ omitemptyList "devices" p.Devices
      ++ omitemptyStr "language" p.Language
      ++ omitemptyStr "region" p.Region
      ++ omitemptyStr "configuration_web_url" p.ConfigurationWebURL
      ++ omitemptyList "skip_setup_items" p.SkipSetupItems
      ++ omitemptyStr "profile_uuid" p.ProfileUUID)

/-- The ProfileResponse structure of godep/profile.go (Apple
AssignProfileResponse): a profile UUID and a per-device status map,
modelled as an association list. -/
structure ProfileResponse where
  ProfileUUID : String
  Devices : List (String × String)
deriving DecidableEq

/-- The DefineProfileResponse structure of godep/profile.go. -/
structure DefineProfileResponse where
  ProfileUUID : String
  Devices : List String
deriving DecidableEq

/-- The ClearProfileResponse structure of godep/profile.go. -/
structure ClearProfileResponse where
  Devices : List (String × String)
deriving DecidableEq

/-- The structured error taxonomy of the client (spec section 7). -/
inductive GoError where
  | ConfigNotFound : GoError
  | StoreError : GoError
  | AuthError : GoError
  | TransportError : GoError
  | ProtocolError : GoError
  | ValidationError : Nat → GoError
  | NotFoundError : Nat → GoError
  | ServerError : Nat → GoError
deriving DecidableEq

/-- An HTTP request as built by the typed operation methods: configured DEP
name, method, path and JSON body. -/
structure Request where
  name : String
  method : String
  path : String
  body : Json

/-- The request AssignProfile builds (godep/profile.go): an anonymous
struct with fields profile_uuid and devices, sent with HTTP PUT to
/profile/devices. -/
def assignProfileRequest (name uuid : String) (serials : List String) : Request :=
  { name := name, method := http.MethodPut, path := "/profile/devices",
    body := Json.obj [("profile_uuid", Json.str uuid),
                      ("devices", Json.arr (serials.map Json.str))] }

/-- The request DefineProfile builds (godep/profile.go): the marshalled
Profile, sent with HTTP POST to /profile. -/
def defineProfileRequest (name : String) (profile : Profile) : Request :=
  { name := name, method := http.MethodPost, path := "/profile",
    body := profile.marshalJSON }

/-- The request RemoveProfile builds (godep/profile.go): an anonymous
struct whose only field is devices (the profile_uuid parameter is
deliberately not supported), sent with HTTP DELETE to /profile/devices. -/
def removeProfileRequest (name : String) (devices : List String) : Request :=
  { name := name, method := http.MethodDelete, path := "/profile/devices",
    body := Json.obj [("devices", Json.arr (devices.map Json.str))] }

/-- A wire response: status code and body; the body is none when the bytes
do not parse as JSON at all. -/
structure HTTPResponse where
  status : Nat
  body : Option Json

/-- Field lookup in a decoded JSON object, as Go json.Unmarshal matches
keys. -/
def getField (fs : List (String × Json)) (k : String) : Option Json :=
  (fs.find? (fun q => q.1 == k)).map Prod.snd

/-- Go json.Unmarshal of a JSON object into a map from string to string:
every value must itself be a string. -/
def decodeStringPairs : List (String × Json) → Option (List (String × String))
  | [] => some []
  | (k, Json.str s) :: rest => (decodeStringPairs rest).map (fun t => (k, s) :: t)
  | _ => none

/-- Go json.Unmarshal of a JSON array into a string slice. -/
def decodeStringList : List Json → Option (List String)
  | [] => some []
  | Json.str s :: rest => (decodeStringList rest).map (fun t => s :: t)
  | _ => none

/-- Go json.Unmarshal of a response body into ProfileResponse: a missing
key leaves the zero value, a key of the wrong type is an error. -/
def decodeProfileResponse (j : Json) : Option ProfileResponse :=
  match j with
  | Json.obj fs =>
    let uuidOpt : Option String :=
      match getField fs "profile_uuid" with
      | some (Json.str s) => some s
      | some _ => none
      | none => some ""
    let devsOpt : Option (List (String × String)) :=
      match getField fs "devices" with
      | some (Json.obj dfs) => decodeStringPairs dfs
      | some _ => none
      | none => some []
    match uuidOpt, devsOpt with
    | some u, some d => some { ProfileUUID := u, Devices := d }
    | _, _ => none
  | _ => none

/-- Go json.Unmarshal of a response body into DefineProfileResponse. -/
def decodeDefineProfileResponse (j : Json) : Option DefineProfileResponse :=
  match j with
  | Json.obj fs =>
    let uuidOpt : Option String :=
      match getField fs "profile_uuid" with
      | some (Json.str s) => some s
      | some _ => none
      | none => some ""
    let devsOpt : Option (List String) :=
      match getField fs "devices" with
      | some (Json.arr js) => decodeStringList js
      | some _ => none
      | none => some []
    match uuidOpt, devsOpt with
    | some u, some d => some { ProfileUUID := u, Devices := d }
    | _, _ => none
  | _ => none

/-- Go json.Unmarshal of a response body into ClearProfileResponse. -/
def decodeClearProfileResponse (j : Json) : Option ClearProfileResponse :=
  match j with
  | Json.obj fs =>
    match getField fs "devices" with
    | some (Json.obj dfs) => (decodeStringPairs dfs).map (fun d => { Devices := d })
    | some _ => none
    | none => some { Devices := [] }
  | _ => none

/-- Modelled from the spec: the environment the Request Executor runs in.
The source tree contains only the typed operation methods; the Session
Manager handshake and the wire transport behind Client.do are missing, so
they are modelled as oracles: authResult gives the outcome of the k-th
authentication handshake of the process, transport gives the wire response
to the k-th request actually sent. -/
structure Env where
  authResult : Nat → Except GoError String
  transport : Nat → HTTPResponse

/-- Modelled from the spec: the shared mutable state of the client — the
session-token cache keyed by configuration name — instrumented with the
number of authentication handshakes performed and the log of requests sent,
so that the retry discipline is observable. -/
structure ExecState where
  cache : List (String × String)
  authCalls : Nat
  requests : List Request

/-- Session-token cache lookup by configuration name. -/
def lookupCache (c : List (String × String)) (n : String) : Option String :=
  (c.find? (fun q => q.1 == n)).map Prod.snd

/-- Modelled from the spec: EnsureSession of the Session Manager (missing
from the source tree).  Returns the cached token when present; otherwise
performs one authentication handshake and, on success, caches the new
token. -/
def EnsureSession (env : Env) (st : ExecState) (name : String) :
    ExecState × Except GoError String :=
  match lookupCache st.cache name with
  | some tok => (st, Except.ok tok)
  | none =>
    match env.authResult st.authCalls with
    | Except.ok tok =>
      ({ st with cache := (name, tok) :: st.cache, authCalls := st.authCalls + 1 },
        Except.ok tok)
    | Except.error e =>
      ({ st with authCalls := st.authCalls + 1 }, Except.error e)

/-- Modelled from the spec: Invalidate of the Session Manager drops the
cached token for a configuration name unconditionally. -/
def Invalidate (st : ExecState) (name : String) : ExecState :=
  { st with cache := st.cache.filter (fun q => q.1 != name) }

/-- Modelled from the spec: the authentication-failure marker on a
response (an expired or invalid session), taken to be HTTP status 401. -/
def isAuthFailure (resp : HTTPResponse) : Bool :=
  resp.status == 401

/-- Modelled from the spec: the Response Decoder.  A 2xx body parseable as
the expected shape decodes successfully; a 2xx unparseable body is
ProtocolError; 401 is AuthError; 404 NotFoundError; other 4xx
ValidationError; everything else ServerError. -/
def Decode (A : Type) (dec : Json → Option A) (status : Nat) (body : Option Json) :
    Except GoError A :=
  if 200 ≤ status ∧ status ≤ 299 then
    match body with
    | some j =>
      match dec j with
      | some v => Except.ok v
      | none => Except.error GoError.ProtocolError
    | none => Except.error GoError.ProtocolError
  else if status == 401 then Except.error GoError.AuthError
  else if status == 404 then Except.error (GoError.NotFoundError status)
  else if 400 ≤ status ∧ status ≤ 499 then Except.error (GoError.ValidationError status)
  else Except.error (GoError.ServerError status)

/-- Modelled from the spec: one attempt of the Request Executor — obtain a
token via the Session Manager (propagating failure without sending), then
send the request and record it. -/
def sendOnce (env : Env) (st : ExecState) (r : Request) :
    ExecState × Except GoError HTTPResponse :=
  match EnsureSession env st r.name with
  | (st1, Except.error e) => (st1, Except.error e)
  | (st1, Except.ok _tok) =>
    let resp := env.transport st1.requests.length
    ({ st1 with requests := st1.requests ++ [r] }, Except.ok resp)

/-- Modelled from the spec: Execute of the Request Executor (Client.do in
the source, missing from the tree).  Sends the request once; on an
authentication-failure response it invalidates the cached token and
reissues exactly once; a second authentication failure returns AuthError
with no third attempt; otherwise the response is decoded. -/
def Execute (A : Type) (dec : Json → Option A) (env : Env) (st : ExecState)
    (r : Request) : ExecState × Except GoError A :=
  match sendOnce env st r with
  | (st1, Except.error e) => (st1, Except.error e)
  | (st1, Except.ok resp1) =>
    if isAuthFailure resp1 then
      match sendOnce env (Invalidate st1 r.name) r with
      | (st3, Except.error e) => (st3, Except.error e)
      | (st3, Except.ok resp2) =>
        if isAuthFailure resp2 then (st3, Except.error GoError.AuthError)
        else (st3, Decode A dec resp2.status resp2.body)
    else (st1, Decode A dec resp1.status resp1.body)

/-- The Go return convention of the operation methods: resp is allocated
with new before the request runs and returned unconditionally, so the
response pointer is non-nil whatever error the executor produced. -/
def goReturn (A : Type) (zero : A) : Except GoError A → Option A × Option GoError
  | Except.ok v => (some v, none)
  | Except.error e => (some zero, some e)

/-- AssignProfile of godep/profile.go: builds the profile_uuid and devices
request, sends it with HTTP PUT to /profile/devices through the executor,
and returns the allocated ProfileResponse alongside the executor error. -/
def AssignProfile (env : Env) (st : ExecState) (name uuid : String)
    (serials : List String) : ExecState × (Option ProfileResponse × Option GoError) :=
  let res := Execute ProfileResponse decodeProfileResponse env st
    (assignProfileRequest name uuid serials)
  (res.1, goReturn ProfileResponse { ProfileUUID := "", Devices := [] } res.2)

/-- DefineProfile of godep/profile.go: sends the marshalled profile with
HTTP POST to /profile and returns the allocated DefineProfileResponse
alongside the executor error. -/
def DefineProfile (env : Env) (st : ExecState) (name : String) (profile : Profile) :
    ExecState × (Option DefineProfileResponse × Option GoError) :=
  let res := Execute DefineProfileResponse decodeDefineProfileResponse env st
    (defineProfileRequest name profile)
  (res.1, goReturn DefineProfileResponse { ProfileUUID := "", Devices := [] } res.2)

/-- RemoveProfile of godep/profile.go: sends the devices-only request with
HTTP DELETE to /profile/devices and returns the allocated
ClearProfileResponse alongside the executor error. -/
def RemoveProfile (env : Env) (st : ExecState) (name : String) (devices : List String) :
    ExecState × (Option ClearProfileResponse × Option GoError) :=
  let res := Execute ClearProfileResponse decodeClearProfileResponse env st
    (removeProfileRequest name devices)
  (res.1, goReturn ClearProfileResponse { Devices := [] } res.2)

/-- EnsureSession never sends a request: the request log is unchanged. -/
lemma EnsureSession_requests (env : Env) (st : ExecState) (n : String) :
    (EnsureSession env st n).1.requests = st.requests := by
  unfold EnsureSession
  rcases lookupCache st.cache n with _ | tok
  · rcases env.authResult st.authCalls with e | tok' <;> rfl
  · rfl

/-- One executor attempt sends either nothing (session failure) or exactly
the given request. -/
lemma sendOnce_requests (env : Env) (st : ExecState) (r : Request) :
    (sendOnce env st r).1.requests = st.requests ∨
      (sendOnce env st r).1.requests = st.requests ++ [r] := by
  unfold sendOnce
  rcases h : EnsureSession env st r.name with ⟨st1, res⟩
  have h1 : st1.requests = st.requests := by
    have := EnsureSession_requests env st r.name
    rw [h] at this
    exact this
  rcases res with e | tok
  · exact Or.inl h1
  · right
    simp [h1]

/-- Invalidate only touches the token cache. -/
lemma Invalidate_requests (st : ExecState) (n : String) :
    (Invalidate st n).requests = st.requests := rfl

/-- Execute sends zero, one or two copies of its request and nothing
else. -/
lemma Execute_requests (A : Type) (dec : Json → Option A) (env : Env)
    (st : ExecState) (r : Request) :
    (Execute A dec env st r).1.requests = st.requests ∨
      (Execute A dec env st r).1.requests = st.requests ++ [r] ∨
      (Execute A dec env st r).1.requests = st.requests ++ [r] ++ [r] := by
  unfold Execute
  rcases h1 : sendOnce env st r with ⟨st1, res1⟩
  have hr1 : st1.requests = st.requests ∨ st1.requests = st.requests ++ [r] := by
    have := sendOnce_requests env st r
    rw [h1] at this
    exact this
  rcases res1 with e | resp1
  · simpa using Or.imp id Or.inl hr1
  · simp only
    by_cases ha : isAuthFailure resp1
    · simp only [ha, if_true]
      rcases h2 : sendOnce env (Invalidate st1 r.name) r with ⟨st3, res2⟩
      have hr3 : st3.requests = st1.requests ∨ st3.requests = st1.requests ++ [r] := by
        have := sendOnce_requests env (Invalidate st1 r.name) r
        rw [h2, Invalidate_requests] at this
        exact this
      have hout : st3.requests = st.requests ∨ st3.requests = st.requests ++ [r] ∨
          st3.requests = st.requests ++ [r] ++ [r] := by
        rcases hr3 with h3 | h3 <;> rcases hr1 with h0 | h0 <;> rw [h3, h0] <;> simp
      rcases res2 with e | resp2
      · simpa using hout
      · by_cases hb : isAuthFailure resp2 <;> simp [hb] <;> simpa using hout
    · simp only [ha, if_false]
      simpa using Or.imp id Or.inl hr1

/-- Every request Execute appends to the log is the one request it was
given: the suffix it adds is a replicated copy of that request. -/
lemma Execute_sent_replicate (A : Type) (dec : Json → Option A) (env : Env)
    (st : ExecState) (r : Request) :
    (Execute A dec env st r).1.requests.drop st.requests.length =
      List.replicate
        ((Execute A dec env st r).1.requests.drop st.requests.length).length r := by
  rcases Execute_requests A dec env st r with h | h | h <;> rw [h] <;>
    simp [List.drop_left, List.append_assoc]

/-- Dropping a configuration name from the cache makes its lookup fail. -/
lemma lookupCache_filter (l : List (String × String)) (n : String) :
    lookupCache (l.filter (fun q => q.1 != n)) n = none := by
  unfold lookupCache
  suffices h : (l.filter (fun q => q.1 != n)).find? (fun q => q.1 == n) = none by
    rw [h]
    rfl
  rw [List.find?_eq_none]
  intro x hx
  have hmem : (x.1 != n) = true := (List.mem_filter.mp hx).2
  simp only [bne_iff_ne, ne_eq] at hmem
  simp [hmem]

/-- The Go return convention always yields a non-nil response pointer. -/
lemma goReturn_isSome (A : Type) (zero : A) (r : Except GoError A) :
    ((goReturn A zero r).1).isSome = true := by
  cases r <;> rfl

/-- Claim C2: for every configuration name, profile UUID and serial list,
AssignProfile issues its request with method PUT to path /profile/devices
— the compatibility verb, not the POST of current documentation — and
every request it actually sends is exactly that fixed request. -/
theorem assignProfile_put_profile_devices (env : Env) (st : ExecState)
    (name uuid : String) (serials : List String) :
    (assignProfileRequest name uuid serials).method = http.MethodPut ∧
    (assignProfileRequest name uuid serials).path = "/profile/devices" ∧
    http.MethodPut = "PUT" ∧ (http.MethodPut == http.MethodPost) = false ∧
    (AssignProfile env st name uuid serials).1.requests.drop st.requests.length =
      List.replicate
        ((AssignProfile env st name uuid serials).1.requests.drop
          st.requests.length).length
        (assignProfileRequest name uuid serials) := by
  refine ⟨rfl, rfl, rfl, by decide, ?_⟩
  simpa [AssignProfile] using
    Execute_sent_replicate ProfileResponse decodeProfileResponse env st
      (assignProfileRequest name uuid serials)

/-- Claim C3, counterexample: at two concrete deployments (configuration
names acme and other, different profiles and serials) the verb of the
assign-profile request is the same fixed literal PUT; AssignProfile takes
no per-deployment configuration datum that could override it, so the verb
is hardcoded, not configurable. -/
theorem assignProfile_verb_not_configurable_cex :
    (assignProfileRequest "acme" "P1" ["S1", "S2"]).method = "PUT" ∧
    (assignProfileRequest "other" "Q9" ["Z1"]).method = "PUT" ∧
    (assignProfileRequest "acme" "P1" ["S1", "S2"]).method =
      (assignProfileRequest "other" "Q9" ["Z1"]).method :=
  ⟨rfl, rfl, rfl⟩

/-- Claim C3, amended: the verb of the compatibility-quirk assign-profile
operation is hardcoded to PUT inside AssignProfile: for every two
deployments (configuration names, profile UUIDs and serial lists) the
request method is the same literal PUT, with no configuration input able
to change it. -/
theorem assignProfile_verb_hardcoded (n1 n2 u1 u2 : String)
    (s1 s2 : List String) :
    (assignProfileRequest n1 u1 s1).method = "PUT" ∧
    (assignProfileRequest n1 u1 s1).method = (assignProfileRequest n2 u2 s2).method :=
  ⟨rfl, rfl⟩

/-- Claim C6: the method/path pairing of each logical operation is a fixed
constant independent of the arguments: DefineProfile always issues POST to
/profile, RemoveProfile always issues DELETE to /profile/devices, and
every request either operation actually sends is its fixed request. -/
theorem defineRemove_fixed_method_path (env : Env) (st : ExecState)
    (name : String) (profile : Profile) (devices : List String) :
    (defineProfileRequest name profile).method = http.MethodPost ∧
    (defineProfileRequest name profile).path = "/profile" ∧
    (removeProfileRequest name devices).method = http.MethodDelete ∧
    (removeProfileRequest name devices).path = "/profile/devices" ∧
    http.MethodPost = "POST" ∧ http.MethodDelete = "DELETE" ∧
    (DefineProfile env st name profile).1.requests.drop st.requests.length =
      List.replicate
        ((DefineProfile env st name profile).1.requests.drop
          st.requests.length).length
        (defineProfileRequest name profile) ∧
    (RemoveProfile env st name devices).1.requests.drop st.requests.length =
      List.replicate
        ((RemoveProfile env st name devices).1.requests.drop
          st.requests.length).length
        (removeProfileRequest name devices) := by
  refine ⟨rfl, rfl, rfl, rfl, rfl, rfl, ?_, ?_⟩
  · simpa [DefineProfile] using
      Execute_sent_replicate DefineProfileResponse decodeDefineProfileResponse env st
        (defineProfileRequest name profile)
  · simpa [RemoveProfile] using
      Execute_sent_replicate ClearProfileResponse decodeClearProfileResponse env st
        (removeProfileRequest name devices)

/-- Claim C8: AssignProfile, DefineProfile and RemoveProfile return a
non-nil response pointer on every input and in every environment: the
response value is allocated before the request executes and is returned
unconditionally alongside whatever error the executor produced. -/
theorem ops_return_nonnil_response (env : Env) (st : ExecState)
    (name uuid : String) (serials : List String) (profile : Profile)
    (devices : List String) :
    ((AssignProfile env st name uuid serials).2.1).isSome = true ∧
    ((DefineProfile env st name profile).2.1).isSome = true ∧
    ((RemoveProfile env st name devices).2.1).isSome = true :=
  ⟨goReturn_isSome _ _ _, goReturn_isSome _ _ _, goReturn_isSome _ _ _⟩

/-- Claim C9: the request body RemoveProfile sends holds exactly one
field, devices, equal to the given list; the documented profile_uuid
parameter is never included, for any configuration name or device list. -/
theorem removeProfile_body_devices_only (name : String) (devices : List String) :
    (removeProfileRequest name devices).body =
      Json.obj [("devices", Json.arr (devices.map Json.str))] ∧
    Json.objKeys (removeProfileRequest name devices).body = ["devices"] ∧
    (Json.objKeys (removeProfileRequest name devices).body).contains
      "profile_uuid" = false :=
  ⟨rfl, rfl, rfl⟩

/-- Decoding a JSON object whose values are all strings recovers the
original association list verbatim. -/
lemma decodeStringPairs_encode (ds : List (String × String)) :
    decodeStringPairs (ds.map (fun q => (q.1, Json.str q.2))) = some ds := by
  induction ds with
  | nil => rfl
  | cons hd tl ih =>
    obtain ⟨k, v⟩ := hd
    simp [decodeStringPairs, ih]

/-- Decoding the batch assign-profile response body recovers the profile
UUID and the whole per-device status map verbatim. -/
lemma decodeProfileResponse_batch (uuid : String) (ds : List (String × String)) :
    decodeProfileResponse
      (Json.obj [("profile_uuid", Json.str uuid),
        ("devices", Json.obj (ds.map (fun q => (q.1, Json.str q.2))))]) =
      some { ProfileUUID := uuid, Devices := ds } := by
  simp [decodeProfileResponse, getField, List.find?, decodeStringPairs_encode]

/-- Claim C1: with a session token cached for the configuration name, an
AssignProfile call whose wire response is a 2xx batch result carrying a
per-device status map returns the decoded ProfileResponse with every
per-device status verbatim and a nil error: an individual device failure
inside the map never becomes a call-level error. -/
theorem assignProfile_batch_partial_success (env : Env) (st : ExecState)
    (name uuid tok : String) (serials : List String) (ds : List (String × String))
    (hcache : lookupCache st.cache name = some tok)
    (hresp : env.transport st.requests.length =
      { status := 200,
        body := some (Json.obj [("profile_uuid", Json.str uuid),
          ("devices", Json.obj (ds.map (fun q => (q.1, Json.str q.2))))]) }) :
    (AssignProfile env st name uuid serials).2 =
      (some { ProfileUUID := uuid, Devices := ds }, none) := by
  simp [AssignProfile, Execute, sendOnce, EnsureSession, assignProfileRequest,
    hcache, hresp, isAuthFailure, Decode, decodeProfileResponse_batch, goReturn]

/-- Claim C1 witness: the spec scenario — configuration acme, profile P1
assigned to serials S1 and S2, the server answering 200 with one device
successful and one not accessible — yields the decoded response with both
statuses and no error. -/
theorem assignProfile_batch_partial_success_witness :
    (AssignProfile
      { authResult := fun _ => Except.ok "T2",
        transport := fun _ =>
          { status := 200,
            body := some (Json.obj [("profile_uuid", Json.str "P1"),
              ("devices", Json.obj [("S1", Json.str "SUCCESS"),
                ("S2", Json.str "NOT_ACCESSIBLE")])]) } }
      { cache := [("acme", "T1")], authCalls := 0, requests := [] }
      "acme" "P1" ["S1", "S2"]).2 =
      (some { ProfileUUID := "P1",
              Devices := [("S1", "SUCCESS"), ("S2", "NOT_ACCESSIBLE")] }, none) := by
  exact assignProfile_batch_partial_success _ _ "acme" "P1" "T1" ["S1", "S2"]
    [("S1", "SUCCESS"), ("S2", "NOT_ACCESSIBLE")] rfl rfl

/-- Claim C4: with a token cached for the configuration and a successful
re-authentication available, a response signalling authentication failure
makes Execute invalidate the cached token and reissue the request exactly
once; when the second response also signals authentication failure,
Execute returns AuthError after exactly two sends and exactly one
re-authentication handshake — no third attempt. -/
theorem execute_auth_retry_once (A : Type) (dec : Json → Option A) (env : Env)
    (st : ExecState) (r : Request) (tok tok2 : String)
    (hcache : lookupCache st.cache r.name = some tok)
    (hauth : env.authResult st.authCalls = Except.ok tok2)
    (h1 : (env.transport st.requests.length).status = 401)
    (h2 : (env.transport (st.requests.length + 1)).status = 401) :
    (Execute A dec env st r).2 = Except.error GoError.AuthError ∧
    (Execute A dec env st r).1.requests.length = st.requests.length + 2 ∧
    (Execute A dec env st r).1.authCalls = st.authCalls + 1 := by
  have hfail1 : isAuthFailure (env.transport st.requests.length) = true := by
    simp [isAuthFailure, h1]
  have hfail2 : isAuthFailure (env.transport (st.requests.length + 1)) = true := by
    simp [isAuthFailure, h2]
  simp [Execute, sendOnce, EnsureSession, Invalidate, hcache, hauth,
    lookupCache_filter, hfail1, hfail2, List.length_append]

/-- Claim C4 witness: a concrete run — token cached for acme, the server
answering 401 to both sends — returns AuthError after exactly two requests
and one re-authentication. -/
theorem execute_auth_retry_once_witness :
    (Execute ProfileResponse decodeProfileResponse
      { authResult := fun _ => Except.ok "T2",
        transport := fun _ => { status := 401, body := none } }
      { cache := [("acme", "T1")], authCalls := 0, requests := [] }
      (assignProfileRequest "acme" "P1" ["S1"])).2 =
        Except.error GoError.AuthError ∧
    (Execute ProfileResponse decodeProfileResponse
      { authResult := fun _ => Except.ok "T2",
        transport := fun _ => { status := 401, body := none } }
      { cache := [("acme", "T1")], authCalls := 0, requests := [] }
      (assignProfileRequest "acme" "P1" ["S1"])).1.requests.length = 2 ∧
    (Execute ProfileResponse decodeProfileResponse
      { authResult := fun _ => Except.ok "T2",
        transport := fun _ => { status := 401, body := none } }
      { cache := [("acme", "T1")], authCalls := 0, requests := [] }
      (assignProfileRequest "acme" "P1" ["S1"])).1.authCalls = 1 := by
  exact execute_auth_retry_once ProfileResponse decodeProfileResponse _ _ _
    "T1" "T2" rfl rfl rfl rfl

/-- Claim C5: a 2xx response whose body does not parse as the expected
shape makes Decode return ProtocolError — never a successful value — and
Execute surfaces that error after exactly one send: the request is not
retried. -/
theorem execute_2xx_unparseable_protocol_error (A : Type) (dec : Json → Option A)
    (env : Env) (st : ExecState) (r : Request) (tok : String)
    (hcache : lookupCache st.cache r.name = some tok)
    (hs1 : 200 ≤ (env.transport st.requests.length).status)
    (hs2 : (env.transport st.requests.length).status ≤ 299)
    (hb : ((env.transport st.requests.length).body.bind dec) = none) :
    Decode A dec (env.transport st.requests.length).status
        (env.transport st.requests.length).body =
      Except.error GoError.ProtocolError ∧
    (Execute A dec env st r).2 = Except.error GoError.ProtocolError ∧
    (Execute A dec env st r).1.requests.length = st.requests.length + 1 := by
  have hne : ((env.transport st.requests.length).status == 401) = false := by
    simp only [beq_eq_false_iff_ne, ne_eq]
    omega
  have hdec : Decode A dec (env.transport st.requests.length).status
      (env.transport st.requests.length).body = Except.error GoError.ProtocolError := by
    unfold Decode
    rw [if_pos ⟨hs1, hs2⟩]
    rcases hbody : (env.transport st.requests.length).body with _ | j
    · rfl
    · rw [hbody] at hb
      have hdj : dec j = none := by simpa using hb
      simp [hdj]
  refine ⟨hdec, ?_, ?_⟩ <;>
    simp [Execute, sendOnce, EnsureSession, hcache, isAuthFailure, hne, hdec,
      List.length_append]

/-- Claim C5 witness: a concrete run — token cached for acme, the server
answering 200 with a body that is a JSON array instead of the expected
object — yields ProtocolError from Decode and from Execute, with exactly
one request sent. -/
theorem execute_2xx_unparseable_protocol_error_witness :
    Decode ProfileResponse decodeProfileResponse 200 (some (Json.arr [])) =
      Except.error GoError.ProtocolError ∧
    (Execute ProfileResponse decodeProfileResponse
      { authResult := fun _ => Except.ok "T2",
        transport := fun _ => { status := 200, body := some (Json.arr []) } }
      { cache := [("acme", "T1")], authCalls := 0, requests := [] }
      (assignProfileRequest "acme" "P1" ["S1"])).2 =
        Except.error GoError.ProtocolError ∧
    (Execute ProfileResponse decodeProfileResponse
      { authResult := fun _ => Except.ok "T2",
        transport := fun _ => { status := 200, body := some (Json.arr []) } }
      { cache := [("acme", "T1")], authCalls := 0, requests := [] }
      (assignProfileRequest "acme" "P1" ["S1"])).1.requests.length = 1 := by
  exact execute_2xx_unparseable_protocol_error ProfileResponse
    decodeProfileResponse
    { authResult := fun _ => Except.ok "T2",
      transport := fun _ => { status := 200, body := some (Json.arr []) } }
    { cache := [("acme", "T1")], authCalls := 0, requests := [] }
    (assignProfileRequest "acme" "P1" ["S1"]) "T1" rfl (by decide) (by decide) rfl

/-- The keys of the JSON encoding of a Profile. -/
def Profile.jsonKeys (p : Profile) : List String :=
  p.marshalJSON.objKeys

/-- Pair membership in a Bool omitempty segment: the pair is present
exactly when the field is true. -/
lemma pairmem_omitemptyBool (q : String × Json) (k : String) (v : Bool) :
    q ∈ omitemptyBool k v ↔ (v = true ∧ q = (k, Json.bool v)) := by
  unfold omitemptyBool
  cases v <;> simp

/-- Pair membership in a string omitempty segment: the pair is present
exactly when the field is non-empty. -/
lemma pairmem_omitemptyStr (q : String × Json) (k v : String) :
    q ∈ omitemptyStr k v ↔ (v ≠ "" ∧ q = (k, Json.str v)) := by
  unfold omitemptyStr
  by_cases h : v = "" <;> simp [h]

/-- Pair membership in a string-slice omitempty segment: the pair is
present exactly when the field is non-empty. -/
lemma pairmem_omitemptyList (q : String × Json) (k : String) (v : List String) :
    q ∈ omitemptyList k v ↔ (v ≠ [] ∧ q = (k, Json.arr (v.map Json.str))) := by
  unfold omitemptyList
  by_cases h : v = [] <;> simp [h]

set_option maxHeartbeats 1600000 in
/-- Claim C10: for every Profile, the JSON encoding always carries the
keys profile_name, url, org_magic and is_mdm_removable — in particular
is_mdm_removable is serialized with its Bool value even when unset (false)
rather than omitted — while every omitempty field appears exactly when it
is non-zero, hence is absent at its zero value. -/
theorem profile_marshal_required_and_omitempty (p : Profile) :
    p.jsonKeys.contains "profile_name" = true ∧
    p.jsonKeys.contains "url" = true ∧
    p.jsonKeys.contains "org_magic" = true ∧
    p.jsonKeys.contains "is_mdm_removable" = true ∧
    ("is_mdm_removable", Json.bool p.IsMDMRemovable) ∈ p.marshalJSON.objFields ∧
    p.jsonKeys.contains "allow_pairing" = p.AllowPairing ∧
    p.jsonKeys.contains "is_supervised" = p.IsSupervised ∧
    p.jsonKeys.contains "is_multi_user" = p.IsMultiUser ∧
    p.jsonKeys.contains "is_mandatory" = p.IsMandatory ∧
    p.jsonKeys.contains "await_device_configured" = p.AwaitDeviceConfigured ∧
    p.jsonKeys.contains "auto_advance_setup" = p.AutoAdvanceSetup ∧
    p.jsonKeys.contains "support_phone_number" = decide (p.SupportPhoneNumber ≠ "") ∧
    p.jsonKeys.contains "support_email_address" = decide (p.SupportEmailAddress ≠ "") ∧
    p.jsonKeys.contains "department" = decide (p.Department ≠ "") ∧
    p.jsonKeys.contains "language" = decide (p.Language ≠ "") ∧
    p.jsonKeys.contains "region" = decide (p.Region ≠ "") ∧
    p.jsonKeys.contains "configuration_web_url" = decide (p.ConfigurationWebURL ≠ "") ∧
    p.jsonKeys.contains "profile_uuid" = decide (p.ProfileUUID ≠ "") ∧
    p.jsonKeys.contains "anchor_certs" = decide (p.AnchorCerts ≠ []) ∧
    p.jsonKeys.contains "supervising_host_certs" = decide (p.SupervisingHostCerts ≠ []) ∧
    p.jsonKeys.contains "devices" = decide (p.Devices ≠ []) ∧
    p.jsonKeys.contains "skip_setup_items" = decide (p.SkipSetupItems ≠ []) := by
  refine ⟨?_, ?_, ?_, ?_, ?_, ?_, ?_, ?_, ?_, ?_, ?_, ?_, ?_, ?_, ?_, ?_, ?_, ?_,
    ?_, ?_, ?_, ?_⟩
  · simp [Profile.jsonKeys, Profile.marshalJSON, Json.objKeys,
      pairmem_omitemptyBool, pairmem_omitemptyStr, pairmem_omitemptyList]
  · simp [Profile.jsonKeys, Profile.marshalJSON, Json.objKeys,
      pairmem_omitemptyBool, pairmem_omitemptyStr, pairmem_omitemptyList]
  · simp [Profile.jsonKeys, Profile.marshalJSON, Json.objKeys,
      pairmem_omitemptyBool, pairmem_omitemptyStr, pairmem_omitemptyList]
  · simp [Profile.jsonKeys, Profile.marshalJSON, Json.objKeys,
      pairmem_omitemptyBool, pairmem_omitemptyStr, pairmem_omitemptyList]
  · simp [Profile.marshalJSON, Json.objFields,
      pairmem_omitemptyBool, pairmem_omitemptyStr, pairmem_omitemptyList]
  · cases hv : p.AllowPairing <;>
      simp [Profile.jsonKeys, Profile.marshalJSON, Json.objKeys, hv,
        pairmem_omitemptyBool, pairmem_omitemptyStr, pairmem_omitemptyList]
  · cases hv : p.IsSupervised <;>
      simp [Profile.jsonKeys, Profile.marshalJSON, Json.objKeys, hv,
        pairmem_omitemptyBool, pairmem_omitemptyStr, pairmem_omitemptyList]
  · cases hv : p.IsMultiUser <;>
      simp [Profile.jsonKeys, Profile.marshalJSON, Json.objKeys, hv,
        pairmem_omitemptyBool, pairmem_omitemptyStr, pairmem_omitemptyList]
  · cases hv : p.IsMandatory <;>
      simp [Profile.jsonKeys, Profile.marshalJSON, Json.objKeys, hv,
        pairmem_omitemptyBool, pairmem_omitemptyStr, pairmem_omitemptyList]
  · cases hv : p.AwaitDeviceConfigured <;>
      simp [Profile.jsonKeys, Profile.marshalJSON, Json.objKeys, hv,
        pairmem_omitemptyBool, pairmem_omitemptyStr, pairmem_omitemptyList]
  · cases hv : p.AutoAdvanceSetup <;>
      simp [Profile.jsonKeys, Profile.marshalJSON, Json.objKeys, hv,
        pairmem_omitemptyBool, pairmem_omitemptyStr, pairmem_omitemptyList]
  · by_cases hv : p.SupportPhoneNumber = "" <;>
      simp [Profile.jsonKeys, Profile.marshalJSON, Json.objKeys, hv,
        pairmem_omitemptyBool, pairmem_omitemptyStr, pairmem_omitemptyList]
  · by_cases hv : p.SupportEmailAddress = "" <;>
      simp [Profile.jsonKeys, Profile.marshalJSON, Json.objKeys, hv,
        pairmem_omitemptyBool, pairmem_omitemptyStr, pairmem_omitemptyList]
  · by_cases hv : p.Department = "" <;>
      simp [Profile.jsonKeys, Profile.marshalJSON, Json.objKeys, hv,
        pairmem_omitemptyBool, pairmem_omitemptyStr, pairmem_omitemptyList]
  · by_cases hv : p.Language = "" <;>
      simp [Profile.jsonKeys, Profile.marshalJSON, Json.objKeys, hv,
        pairmem_omitemptyBool, pairmem_omitemptyStr, pairmem_omitemptyList]
  · by_cases hv : p.Region = "" <;>
      simp [Profile.jsonKeys, Profile.marshalJSON, Json.objKeys, hv,
        pairmem_omitemptyBool, pairmem_omitemptyStr, pairmem_omitemptyList]
  · by_cases hv : p.ConfigurationWebURL = "" <;>
      simp [Profile.jsonKeys, Profile.marshalJSON, Json.objKeys, hv,
        pairmem_omitemptyBool, pairmem_omitemptyStr, pairmem_omitemptyList]
  · by_cases hv : p.ProfileUUID = "" <;>
      simp [Profile.jsonKeys, Profile.marshalJSON, Json.objKeys, hv,
        pairmem_omitemptyBool, pairmem_omitemptyStr, pairmem_omitemptyList]
  · by_cases hv : p.AnchorCerts = [] <;>
      simp [Profile.jsonKeys, Profile.marshalJSON, Json.objKeys, hv,
        pairmem_omitemptyBool, pairmem_omitemptyStr, pairmem_omitemptyList]
  · by_cases hv : p.SupervisingHostCerts = [] <;>
      simp [Profile.jsonKeys, Profile.marshalJSON, Json.objKeys, hv,
        pairmem_omitemptyBool, pairmem_omitemptyStr, pairmem_omitemptyList]
  · by_cases hv : p.Devices = [] <;>
      simp [Profile.jsonKeys, Profile.marshalJSON, Json.objKeys, hv,
        pairmem_omitemptyBool, pairmem_omitemptyStr, pairmem_omitemptyList]
  · by_cases hv : p.SkipSetupItems = [] <;>
      simp [Profile.jsonKeys, Profile.marshalJSON, Json.objKeys, hv,
        pairmem_omitemptyBool, pairmem_omitemptyStr, pairmem_omitemptyList]

end Godep
